import Mathlib

/-!
Verification model of the document-submission controller implemented in
src/src/pages/Upload.jsx of the student-scholarship repository.

The JavaScript code is shallowly embedded:
* numbers are rationals (ℚ); machine floats carry no claim-relevant
  rounding here, all claim inputs are exact in ℚ;
* JS truthiness is explicit: a number is falsy exactly when it is 0, a
  string exactly when it is empty, an absent value (undefined/null) is
  falsy; the `x || d` idiom becomes the jsOr* helpers;
* `parseInt` is parseIntStr (whitespace skip, optional sign, leading
  decimal digits, NaN as none); `parseInt` applied to a number goes
  through the number's decimal rendering, which for plain (non-exponent)
  renderings truncates toward zero, modelled by ratTrunc;
* `Math.round q` is ⌊q + 1/2⌋ (JS rounds half toward +∞);
* `Number.prototype.toLocaleString` is modelled with en-style digit
  grouping for integral values (no claim inspects a formatted amount
  beyond its sentinel);
* the React state cell set by setFile/setProgress/... is an explicit
  UploadState record, operations are state transformers that also return
  the toast notifications they emit;
* the hand-rolled Promise around the XMLHttpRequest is a PromiseOutcome:
  `resolve`d with the parsed JSON, `reject`ed with an Error message, or
  `hung` when an exception is thrown inside the `load` event listener
  (JSON.parse on a 2xx body that is not valid JSON) — such an exception
  does not reject the promise, it escapes to the event loop and leaves
  the promise unsettled, so the `await` in handleSubmit never resumes.
-/

namespace UploadModel

/-- JS `s || d` for an optional string `s`: an absent or empty string is
falsy and falls through to the default. -/
def jsOrStr (v : Option String) (d : String) : String :=
  match v with
  | some s => if s = "" then d else s
  | none => d

/-- JS `q || d` for an optional number `q`: absent or zero falls through. -/
def jsOrQ (v : Option ℚ) (d : ℚ) : ℚ :=
  match v with
  | some q => if q = 0 then d else q
  | none => d

/-- JS `i || d` for an optional integer `i`: absent or zero falls through. -/
def jsOrI (v : Option Int) (d : Int) : Int :=
  match v with
  | some i => if i = 0 then d else i
  | none => d

/-- JS truthiness of an optional number: present and nonzero. -/
def jsTruthyQ : Option ℚ → Bool
  | some q => decide (q ≠ 0)
  | none => false

/-- JS `Math.round`: round half toward positive infinity. -/
def jsRound (q : ℚ) : Int := ⌊q + 1/2⌋

/-- Value of a list of decimal digit characters, most significant first. -/
def digitsToNat (ds : List Char) : Nat :=
  ds.foldl (fun acc c => acc * 10 + (c.toNat - 48)) 0

/-- JS `parseInt(s)` (radix 10): skip leading whitespace, optional sign,
read leading decimal digits; `none` models NaN (no digits found). -/
def parseIntStr (s : String) : Option Int :=
  let cs := s.data.dropWhile (fun c => c == ' ' || c == '\t' || c == '\n' || c == '\r')
  match cs with
  | '-' :: rest =>
      let ds := rest.takeWhile Char.isDigit
      if ds.isEmpty then none else some (-(digitsToNat ds : Int))
  | '+' :: rest =>
      let ds := rest.takeWhile Char.isDigit
      if ds.isEmpty then none else some (digitsToNat ds : Int)
  | _ =>
      let ds := cs.takeWhile Char.isDigit
      if ds.isEmpty then none else some (digitsToNat ds : Int)

/-- Truncation of a rational toward zero, the effect of JS
`parseInt(number)` on a plain decimal rendering. -/
def ratTrunc (q : ℚ) : Int := q.num.tdiv (q.den : Int)

/-- A JSON leaf value appearing as a mark in `subjects_marks`: the wire
contract allows string or number marks. -/
inductive JVal where
  | jstr (s : String)
  | jnum (q : ℚ)
deriving DecidableEq

/-- JS `parseInt(v)` on a string-or-number mark value. -/
def jsParseInt : JVal → Option Int
  | .jstr s => parseIntStr s
  | .jnum q => some (ratTrunc q)

/-- Decimal rendering of a rational; exact for integral values, which are
the only ones the claims evaluate. -/
def qToString (q : ℚ) : String :=
  if q.den = 1 then toString q.num else toString q

/-- Group the reversed digit list of a natural in threes (for locale
formatting). -/
def chunk3 : List Char → List (List Char)
  | [] => []
  | a :: b :: c :: rest => [a, b, c] :: chunk3 rest
  | l => [l]

/-- En-style comma grouping of a natural number's decimal digits. -/
def commaGroup (n : Nat) : String :=
  let rev := (Nat.toDigits 10 n).reverse
  String.mk (List.intercalate [','] ((chunk3 rev).map List.reverse).reverse)

/-- JS `q.toLocaleString()`, modelled for integral values (grouped
digits); non-integral values fall back to the plain rendering. -/
def jsToLocaleString (q : ℚ) : String :=
  if q.den = 1 then
    (if q.num < 0 then "-" else "") ++ commaGroup q.num.natAbs
  else qToString q

/-- Raw `scholarship` object inside a recommendation entry (all fields
optional on the wire). -/
structure RawScholarship where
  id : Option Int
  title : Option String
  name : Option String
  amount : Option ℚ
  provider : Option String
deriving DecidableEq

/-- Raw recommendation entry of a success response. -/
structure RawRec where
  scholarship : Option RawScholarship
  match_score : Option ℚ
  explanation : Option String
deriving DecidableEq

/-- Raw `student_profile` object of a success response. `subjects_marks`
is kept as an ordered association list: JS `Object.entries` enumerates an
object's own keys in the object's natural key order, which is exactly the
order this list carries. `classLabel` embeds the `class` field (a Lean
keyword). -/
structure RawProfile where
  name : Option String
  percentage : Option ℚ
  classLabel : Option String
  board : Option String
  subjects_marks : Option (List (String × JVal))
deriving DecidableEq

/-- The `{}` object substituted by `response.student_profile || {}`. -/
def emptyProfile : RawProfile := ⟨none, none, none, none, none⟩

/-- A parsed JSON response body, covering both the success shape and the
error shape (`detail`). -/
structure ServerJson where
  success : Bool
  message : Option String
  student_profile : Option RawProfile
  recommendations : Option (List RawRec)
  detail : Option String
deriving DecidableEq

/-- One entry of the normalized subject list. -/
structure SubjectMark where
  name : String
  marks : ℚ
deriving DecidableEq

/-- The ExtractedProfile view model built by handleSubmit. -/
structure ExtractedData where
  name : String
  percentage : String
  classLabel : String
  board : String
  subjects : List SubjectMark
deriving DecidableEq

/-- One normalized MatchResult entry (`matchPct` embeds the `match`
field, a Lean keyword). -/
structure ScholarshipView where
  id : Int
  title : String
  matchPct : Int
  amount : String
  provider : String
  explanation : String
deriving DecidableEq

/-- The subject list accumulated by the `for (const [name, marks] of
Object.entries(profile.subjects_marks))` loop: one entry per mapping
entry, mark `parseInt(marks) || 0`. An absent mapping is falsy, so the
loop body is skipped; an empty object is truthy and yields zero
iterations — both give `[]`. -/
def buildSubjects (p : RawProfile) : List SubjectMark :=
  match p.subjects_marks with
  | some entries => entries.map (fun e => ⟨e.1, ((jsOrI (jsParseInt e.2) 0 : Int) : ℚ)⟩)
  | none => []

/-- Normalization of `student_profile` into the ExtractedProfile view
model (Upload.jsx lines 123-136). -/
def buildExtracted (p : RawProfile) : ExtractedData :=
  let subjects := buildSubjects p
  { name := jsOrStr p.name "Unknown"
    percentage :=
      if jsTruthyQ p.percentage then qToString (p.percentage.getD 0) ++ "%" else "N/A"
    classLabel := jsOrStr p.classLabel ""
    board := jsOrStr p.board ""
    subjects :=
      if subjects.length > 0 then subjects
      else [⟨"Overall", jsOrQ p.percentage 0⟩] }

/-- Normalization of one recommendation entry at index `idx` into a
MatchResult (Upload.jsx lines 138-145). -/
def buildScholarship (idx : Nat) (r : RawRec) : ScholarshipView :=
  { id := jsOrI (r.scholarship.bind (fun s => s.id)) ((idx : Int) + 1)
    title :=
      jsOrStr (r.scholarship.bind (fun s => s.title))
        (jsOrStr (r.scholarship.bind (fun s => s.name)) "Scholarship")
    matchPct := jsRound (jsOrQ r.match_score 0)
    amount :=
      if jsTruthyQ (r.scholarship.bind (fun s => s.amount)) then
        "Rs. " ++ jsToLocaleString ((r.scholarship.bind (fun s => s.amount)).getD 0)
      else "Amount varies"
    provider := jsOrStr (r.scholarship.bind (fun s => s.provider)) ""
    explanation := jsOrStr r.explanation "" }

/-- `recommendations.map((rec, idx) => ...)`. -/
def buildScholarshipList (recs : List RawRec) : List ScholarshipView :=
  recs.mapIdx buildScholarship

/-- Modelled from the spec (for the refinement comparison of the subject
list): "if `student_profile.subjects_marks` is a non-empty mapping of
subject-name → mark, converted to an ordered list of (name, integer mark)
pairs, with non-numeric marks coerced to 0; iteration order = mapping's
natural key order. If empty or absent, synthesize a single entry
`{name: "Overall", marks: student_profile.percentage or 0}`". -/
def specSubjects (p : RawProfile) : List SubjectMark :=
  match p.subjects_marks with
  | some entries =>
      if entries = [] then [⟨"Overall", jsOrQ p.percentage 0⟩]
      else entries.map (fun e => ⟨e.1, (((jsParseInt e.2).getD 0 : Int) : ℚ)⟩)
  | none => [⟨"Overall", jsOrQ p.percentage 0⟩]

/-- A candidate file as seen by the component: name, declared media
(MIME) type, byte size. -/
structure JsFile where
  name : String
  type : String
  size : Nat
deriving DecidableEq

/-- The Controller's mutable state: the React state cells of the Upload
component that the claims mention. -/
structure UploadState where
  file : Option JsFile
  isUploading : Bool
  progress : ℚ
  currentStep : Nat
  extractedData : Option ExtractedData
  matchedScholarships : Option (List ScholarshipView)
deriving DecidableEq

/-- All state cells at their `useState` initial values. -/
def initialState : UploadState := ⟨none, false, 0, 0, none, none⟩

/-- A toast emitted through the Notification capability
(showSuccess/showError). -/
inductive Notif where
  | success (msg : String)
  | error (msg : String)
deriving DecidableEq

/-- The `validTypes` list of validateAndSetFile (Upload.jsx line 48);
JPEG appears under both of its MIME spellings. -/
def validTypes : List String :=
  ["application/pdf", "image/png", "image/jpeg", "image/jpg", "image/tiff", "image/bmp"]

/-- Toast text of the UnsupportedType rejection. -/
def invalidTypeMsg : String := "Invalid file type. Please upload PDF or image files."

/-- Toast text of the TooLarge rejection. -/
def tooLargeMsg : String := "File too large. Maximum size is 10MB."

/-- validateAndSetFile (Upload.jsx lines 47-58): reject on media type,
then on size, else set the file. Returns the new state and the toasts
emitted. -/
def validateAndSetFile (f : JsFile) (st : UploadState) : UploadState × List Notif :=
  if !(validTypes.contains f.type) then (st, [.error invalidTypeMsg])
  else if f.size > 10 * 1024 * 1024 then (st, [.error tooLargeMsg])
  else ({ st with file := some f }, [])

/-- removeFile (Upload.jsx lines 60-69), the reset() of the spec: clears
the file, progress, step, and both view models. (The DOM input's value
reset has no counterpart in the modelled state.) -/
def removeFile (st : UploadState) : UploadState :=
  { st with file := none, progress := 0, currentStep := 0,
            extractedData := none, matchedScholarships := none }

/-- One `progress` event of `xhr.upload` (Upload.jsx lines 91-96). -/
structure ProgEvent where
  lengthComputable : Bool
  loaded : ℚ
  total : ℚ
deriving DecidableEq

/-- A response body as handed to `JSON.parse`: either it parses to a
`ServerJson` or parsing throws. -/
inductive BodyText where
  | malformed
  | parsed (j : ServerJson)
deriving DecidableEq

/-- How the XMLHttpRequest ends: a `load` event with a status and body,
or an `error` event. -/
inductive XhrResult where
  | load (status : Nat) (body : BodyText)
  | netErr
deriving DecidableEq

/-- Everything one attempt observes from the transport. -/
structure AttemptInput where
  events : List ProgEvent
  result : XhrResult
deriving DecidableEq

/-- The fate of the promise wrapped around the request: resolved,
rejected with an Error message, or `hung` — an exception thrown inside
the `load` listener (unguarded `JSON.parse` on a 2xx body) escapes to
the event loop without settling the promise, so the surrounding `await`
never resumes. -/
inductive PromiseOutcome where
  | resolved (j : ServerJson)
  | rejected (msg : String)
  | hung
deriving DecidableEq

/-- `xhr.status >= 200 && xhr.status < 300`. -/
def is2xx (status : Nat) : Bool := decide (200 ≤ status ∧ status < 300)

/-- The `load` event listener (Upload.jsx lines 98-109). On 2xx the body
is parsed WITHOUT a try/catch, so a malformed body throws and the
promise hangs; on non-2xx the parse is guarded and rejection carries
`errorData.detail || 'Upload failed'`, or `'Upload failed'` when the
body does not parse. -/
def loadHandler (status : Nat) (body : BodyText) : PromiseOutcome :=
  if is2xx status then
    match body with
    | .parsed j => .resolved j
    | .malformed => .hung
  else
    match body with
    | .parsed j => .rejected (jsOrStr j.detail "Upload failed")
    | .malformed => .rejected "Upload failed"

/-- Outcome of the whole request: the `error` listener rejects with
`'Network error'` (Upload.jsx line 111). -/
def xhrOutcome : XhrResult → PromiseOutcome
  | .load s b => loadHandler s b
  | .netErr => .rejected "Network error"

/-- The upload `progress` listener: when `lengthComputable`, set
progress to `(loaded / total) * 50`. Returns the new state and the
progress values observed (as a sub-trace). -/
def applyEvent (st : UploadState) (e : ProgEvent) : UploadState × List ℚ :=
  if e.lengthComputable then
    let pc := e.loaded / e.total * 50
    ({ st with progress := pc }, [pc])
  else (st, [])

/-- Fold of applyEvent over the events of one attempt, in arrival
order. -/
def applyEvents (st : UploadState) (es : List ProgEvent) : UploadState × List ℚ :=
  match es with
  | [] => (st, [])
  | e :: rest =>
      let r1 := applyEvent st e
      let r2 := applyEvents r1.1 rest
      (r2.1, r1.2 ++ r2.2)

/-- Result of running one handleSubmit attempt: final state, the ordered
trace of progress values set, the toasts emitted, and whether the
function reached a terminal path (its `finally` ran). -/
structure RunResult where
  finalState : UploadState
  trace : List ℚ
  notifs : List Notif
  terminated : Bool
deriving DecidableEq

/-- Fallback of the catch block: `error.message || '...'`. -/
def genericCatchMsg : String := "Failed to process marksheet. Please try again."

/-- The continuation of handleSubmit after `await` (Upload.jsx lines
116-158): on resolution set progress 70 / step 3 and branch on
`response.success`; on rejection fall to catch (skipping the 70 jump);
when the promise hangs, nothing below the `await` — including the
`finally` — ever runs. -/
def settle (st : UploadState) (po : PromiseOutcome) : RunResult :=
  match po with
  | .hung => ⟨st, [], [], false⟩
  | .rejected m =>
      ⟨{ st with isUploading := false }, [],
        [.error (if m = "" then genericCatchMsg else m)], true⟩
  | .resolved j =>
      let st3 := { st with progress := 70, currentStep := 3 }
      if j.success then
        let profile := j.student_profile.getD emptyProfile
        let recs := j.recommendations.getD []
        ⟨{ st3 with extractedData := some (buildExtracted profile),
                    matchedScholarships := some (buildScholarshipList recs),
                    progress := 100, isUploading := false },
          [70, 100], [.success "Marksheet processed successfully!"], true⟩
      else
        ⟨{ st3 with isUploading := false }, [70],
          [.error (jsOrStr j.message "Processing failed")], true⟩

/-- One whole handleSubmit attempt (Upload.jsx lines 71-159): the `if
(!file) return` guard, the initial setters (in-flight flag, step 1,
progress 0, then step 2, progress 30), the upload progress events, and
the settlement of the request promise. -/
def handleSubmit (st0 : UploadState) (inp : AttemptInput) : RunResult :=
  match st0.file with
  | none => ⟨st0, [], [], true⟩
  | some _ =>
      let st1 := { st0 with isUploading := true, currentStep := 1, progress := 0 }
      let st2 := { st1 with currentStep := 2, progress := 30 }
      let evr := applyEvents st2 inp.events
      let r := settle evr.1 (xhrOutcome inp.result)
      ⟨r.finalState, [0, 30] ++ evr.2 ++ r.trace, r.notifs, r.terminated⟩

/-- The progress value an upload event contributes to the trace, if
any. -/
def evPc (e : ProgEvent) : Option ℚ :=
  if e.lengthComputable then some (e.loaded / e.total * 50) else none

/-- A well-formed selected file used by concrete instances. -/
def demoPdf : JsFile := ⟨"marksheet.pdf", "application/pdf", 1000⟩

/-- A state with a file selected, ready to submit. -/
def stWithFile : UploadState := { initialState with file := some demoPdf }

/-- A minimal successful response body. -/
def c1Json : ServerJson := ⟨true, none, none, none, none⟩

/-- Attempt input whose single byte-progress event reports 10% of bytes
sent: its scaled value 5 regresses below the pre-upload jump to 30. -/
def c1Input : AttemptInput := ⟨[⟨true, 1, 10⟩], .load 200 (.parsed c1Json)⟩

/-- Attempt input whose byte-progress events all report at least 60% of
bytes sent, in non-decreasing order. -/
def c1GoodInput : AttemptInput :=
  ⟨[⟨true, 7, 10⟩, ⟨true, 9, 10⟩], .load 200 (.parsed c1Json)⟩

/-- A view model left over from a completed previous attempt. -/
def c6Extracted : ExtractedData := ⟨"A", "90%", "", "", [⟨"Overall", 90⟩]⟩

/-- A state still holding the results of a completed previous attempt. -/
def c6Prior : UploadState := ⟨none, false, 100, 3, some c6Extracted, some []⟩

/-- A valid candidate file selected while `c6Prior`'s results are still
displayed. -/
def c6Pdf : JsFile := ⟨"m.pdf", "application/pdf", 1000⟩

/-- An error body whose `detail` field is present but the empty string. -/
def c7Json : ServerJson := ⟨false, none, none, none, some ""⟩

/-- An error body carrying `detail: "corrupt file"`. -/
def c7GoodJson : ServerJson := ⟨false, none, none, none, some "corrupt file"⟩

/-- A state captured mid-upload, just before the user hits reset. -/
def c5Mid : UploadState := ⟨some demoPdf, true, 20, 2, none, none⟩

/-- The success response of the superseded attempt. -/
def c5Json : ServerJson := ⟨true, none, none, none, none⟩

/-- With default 0, the JS `x || 0` on an optional integer is just the
0-default read, since a present 0 falls through to the same 0. -/
theorem jsOrI_zero (v : Option Int) : jsOrI v 0 = v.getD 0 := by
  cases v with
  | none => rfl
  | some i =>
      by_cases h : i = 0 <;> simp [jsOrI, h]

/-- With default 0, the JS `x || 0` on an optional rational is the
0-default read. -/
theorem jsOrQ_zero (v : Option ℚ) : jsOrQ v 0 = v.getD 0 := by
  cases v with
  | none => rfl
  | some q =>
      by_cases h : q = 0 <;> simp [jsOrQ, h]

/-- Claim C8: removeFile (the reset operation) clears the selected file,
returns the progress state to Idle (step 0, progress 0), clears the
extracted profile and the match list, for every prior state, and is
idempotent. -/
theorem removeFile_clears_and_idempotent (st : UploadState) :
    (removeFile st).file = none ∧ (removeFile st).progress = 0 ∧
    (removeFile st).currentStep = 0 ∧ (removeFile st).extractedData = none ∧
    (removeFile st).matchedScholarships = none ∧
    removeFile (removeFile st) = removeFile st :=
  ⟨rfl, rfl, rfl, rfl, rfl, rfl⟩

/-- Claim C9: validateAndSetFile rejects a media type outside the
allowed list with the UnsupportedType toast, rejects an allowed-type
file larger than 10 MiB (at least 10·1024·1024 + 1 bytes) with the
TooLarge toast, and in both rejection cases returns the state — in
particular the previously held file — unchanged. -/
theorem validate_rejections (f : JsFile) (st : UploadState) :
    (f.type ∉ validTypes →
      validateAndSetFile f st = (st, [Notif.error invalidTypeMsg])) ∧
    (f.type ∈ validTypes → 10 * 1024 * 1024 < f.size →
      validateAndSetFile f st = (st, [Notif.error tooLargeMsg])) := by
  constructor
  · intro h
    simp [validateAndSetFile, h]
  · intro h hs
    simp [validateAndSetFile, h, hs]

/-- Witness for C9: a GIF is rejected as UnsupportedType and a
10 MiB + 1 byte PDF as TooLarge, both leaving the state untouched. -/
theorem validate_rejections_witness :
    validateAndSetFile ⟨"a.gif", "image/gif", 100⟩ initialState
      = (initialState, [Notif.error invalidTypeMsg]) ∧
    validateAndSetFile ⟨"b.pdf", "application/pdf", 10485761⟩ initialState
      = (initialState, [Notif.error tooLargeMsg]) :=
  ⟨(validate_rejections ⟨"a.gif", "image/gif", 100⟩ initialState).1 (by decide),
   (validate_rejections ⟨"b.pdf", "application/pdf", 10485761⟩ initialState).2
      (by decide) (by decide)⟩

/-- Counterexample to claim C6: accepting a new file does NOT clear the
prior results — after validateAndSetFile succeeds on a state still
holding an extracted profile, a match list and progress 100, all of
them are still there (only the file cell changed). -/
theorem validate_clears_counterexample :
    (validateAndSetFile c6Pdf c6Prior).1.extractedData = some c6Extracted ∧
    (validateAndSetFile c6Pdf c6Prior).1.extractedData ≠ none ∧
    (validateAndSetFile c6Pdf c6Prior).1.matchedScholarships = some [] ∧
    (validateAndSetFile c6Pdf c6Prior).1.progress = 100 ∧
    (validateAndSetFile c6Pdf c6Prior).1.file = some c6Pdf := by
  decide

/-- Claim C6 as amended: an accepted file only replaces the selected
file; the prior ExtractedProfile, MatchResult list and ProgressState are
retained unchanged (no clearing happens). -/
theorem validate_accept_sets_only_file (f : JsFile) (st : UploadState)
    (ht : f.type ∈ validTypes) (hs : f.size ≤ 10 * 1024 * 1024) :
    validateAndSetFile f st = ({ st with file := some f }, []) := by
  simp [validateAndSetFile, ht, Nat.not_lt.mpr hs]

/-- Witness for amended C6. -/
theorem validate_accept_sets_only_file_witness :
    validateAndSetFile c6Pdf c6Prior = ({ c6Prior with file := some c6Pdf }, []) :=
  validate_accept_sets_only_file c6Pdf c6Prior (by decide) (by decide)

/-- Claim C2: for every success response, the normalized subject list
equals the spec's description — the entries of `subjects_marks` in the
mapping's key order with each mark parseInt-converted and non-numeric
marks coerced to 0, a single synthetic `{Overall, percentage or 0}`
entry when the mapping is empty or absent — and it is never empty. -/
theorem subjects_normalization (p : RawProfile) :
    (buildExtracted p).subjects = specSubjects p ∧
    (buildExtracted p).subjects ≠ [] := by
  have hmap : ∀ entries : List (String × JVal),
      entries.map (fun e => (⟨e.1, ((jsOrI (jsParseInt e.2) 0 : Int) : ℚ)⟩ : SubjectMark))
        = entries.map (fun e => ⟨e.1, (((jsParseInt e.2).getD 0 : Int) : ℚ)⟩) := by
    intro entries
    apply List.map_congr_left
    intro e _
    rw [jsOrI_zero]
  rcases hp : p.subjects_marks with _ | entries
  · constructor <;> simp [buildExtracted, buildSubjects, specSubjects, hp]
  · cases entries with
    | nil =>
        constructor <;> simp [buildExtracted, buildSubjects, specSubjects, hp]
    | cons e rest =>
        constructor <;>
          simp [buildExtracted, buildSubjects, specSubjects, hp, hmap (e :: rest)]

/-- Claim C3: every normalized recommendation has `match` equal to
`match_score` (0 when absent) rounded with Math.round — the value is the
unclamped rounding, so scores above 100 stay above 100 — and its title
follows the truthiness fallback chain scholarship.title, then
scholarship.name, then the generic "Scholarship" label. -/
theorem matchresult_normalization (idx : Nat) (r : RawRec) :
    (buildScholarship idx r).matchPct = jsRound ((r.match_score).getD 0) ∧
    (∀ t, r.scholarship.bind (fun s => s.title) = some t → t ≠ "" →
      (buildScholarship idx r).title = t) ∧
    (∀ n, (r.scholarship.bind (fun s => s.title) = none ∨
           r.scholarship.bind (fun s => s.title) = some "") →
      r.scholarship.bind (fun s => s.name) = some n → n ≠ "" →
      (buildScholarship idx r).title = n) ∧
    ((r.scholarship.bind (fun s => s.title) = none ∨
      r.scholarship.bind (fun s => s.title) = some "") →
     (r.scholarship.bind (fun s => s.name) = none ∨
      r.scholarship.bind (fun s => s.name) = some "") →
     (buildScholarship idx r).title = "Scholarship") := by
  refine ⟨?_, ?_, ?_, ?_⟩
  · simp [buildScholarship, jsOrQ_zero]
  · intro t ht hne
    simp [buildScholarship, ht, jsOrStr, hne]
  · intro n ht hn hne
    rcases ht with ht | ht <;>
      simp [buildScholarship, ht, hn, jsOrStr, hne]
  · intro ht hn
    rcases ht with ht | ht <;> rcases hn with hn | hn <;>
      simp [buildScholarship, ht, hn, jsOrStr]

/-- Witness for C3: spec example score 91.6 rounds (it equals the
rounded default-read score), a non-empty title wins, a missing/empty
title falls to the name, and a missing scholarship object falls to the
generic label. -/
theorem matchresult_normalization_witness :
    (buildScholarship 0 ⟨some ⟨none, some "Merit Award", some "Alt", none, none⟩,
        some (458/5), none⟩).matchPct
      = jsRound ((some (458/5 : ℚ)).getD 0) ∧
    (buildScholarship 0 ⟨some ⟨none, some "Merit Award", some "Alt", none, none⟩,
        some (458/5), none⟩).title = "Merit Award" ∧
    (buildScholarship 0 ⟨some ⟨none, none, some "Alt", none, none⟩, none, none⟩).title
      = "Alt" ∧
    (buildScholarship 0 ⟨none, some (231/2), none⟩).title = "Scholarship" :=
  ⟨(matchresult_normalization 0
      ⟨some ⟨none, some "Merit Award", some "Alt", none, none⟩, some (458/5), none⟩).1,
   (matchresult_normalization 0
      ⟨some ⟨none, some "Merit Award", some "Alt", none, none⟩, some (458/5), none⟩).2.1
      "Merit Award" rfl (by decide),
   (matchresult_normalization 0
      ⟨some ⟨none, none, some "Alt", none, none⟩, none, none⟩).2.2.1
      "Alt" (Or.inl rfl) rfl (by decide),
   (matchresult_normalization 0 ⟨none, some (231/2), none⟩).2.2.2
      (Or.inl rfl) (Or.inl rfl)⟩

/-- Claim C10: falsy field values behave like absent ones — a
percentage of 0 renders the "N/A" sentinel (and an Overall fallback mark
of 0), an amount of 0 renders "Amount varies", and an id of 0 is
replaced by the positional fallback idx + 1. -/
theorem falsy_fields_as_absent (p : RawProfile) (r : RawRec) (s : RawScholarship)
    (idx : Nat) :
    (p.percentage = some 0 → (buildExtracted p).percentage = "N/A") ∧
    (p.percentage = some 0 →
      (p.subjects_marks = none ∨ p.subjects_marks = some []) →
      (buildExtracted p).subjects = [⟨"Overall", 0⟩]) ∧
    (r.scholarship = some s → s.amount = some 0 →
      (buildScholarship idx r).amount = "Amount varies") ∧
    (r.scholarship = some s → s.id = some 0 →
      (buildScholarship idx r).id = (idx : Int) + 1) := by
  refine ⟨?_, ?_, ?_, ?_⟩
  · intro hp
    simp [buildExtracted, hp, jsTruthyQ]
  · intro hp hm
    rcases hm with hm | hm <;>
      simp [buildExtracted, buildSubjects, hm, hp, jsOrQ]
  · intro hr ha
    simp [buildScholarship, hr, ha, jsTruthyQ]
  · intro hr hi
    simp [buildScholarship, hr, hi, jsOrI]

/-- Witness for C10 at concrete inputs: percentage 0, amount 0, id 0 at
index 4. -/
theorem falsy_fields_as_absent_witness :
    (buildExtracted ⟨none, some 0, none, none, none⟩).percentage = "N/A" ∧
    (buildExtracted ⟨none, some 0, none, none, none⟩).subjects = [⟨"Overall", 0⟩] ∧
    (buildScholarship 4 ⟨some ⟨some 0, none, none, some 0, none⟩, none, none⟩).amount
      = "Amount varies" ∧
    (buildScholarship 4 ⟨some ⟨some 0, none, none, some 0, none⟩, none, none⟩).id
      = (4 : Int) + 1 :=
  ⟨(falsy_fields_as_absent ⟨none, some 0, none, none, none⟩
      ⟨some ⟨some 0, none, none, some 0, none⟩, none, none⟩
      ⟨some 0, none, none, some 0, none⟩ 4).1 rfl,
   (falsy_fields_as_absent ⟨none, some 0, none, none, none⟩
      ⟨some ⟨some 0, none, none, some 0, none⟩, none, none⟩
      ⟨some 0, none, none, some 0, none⟩ 4).2.1 rfl (Or.inl rfl),
   (falsy_fields_as_absent ⟨none, some 0, none, none, none⟩
      ⟨some ⟨some 0, none, none, some 0, none⟩, none, none⟩
      ⟨some 0, none, none, some 0, none⟩ 4).2.2.1 rfl rfl,
   (falsy_fields_as_absent ⟨none, some 0, none, none, none⟩
      ⟨some ⟨some 0, none, none, some 0, none⟩, none, none⟩
      ⟨some 0, none, none, some 0, none⟩ 4).2.2.2 rfl rfl⟩

/-- A progress listener callback touches only the progress cell. -/
theorem applyEvent_isUploading (st : UploadState) (e : ProgEvent) :
    (applyEvent st e).1.isUploading = st.isUploading := by
  by_cases h : e.lengthComputable <;> simp [applyEvent, h]

/-- The progress-event fold leaves the in-flight flag unchanged. -/
theorem applyEvents_isUploading (es : List ProgEvent) :
    ∀ st : UploadState, (applyEvents st es).1.isUploading = st.isUploading := by
  induction es with
  | nil => intro st; rfl
  | cons e rest ih =>
      intro st
      simp only [applyEvents]
      rw [ih]
      exact applyEvent_isUploading st e

/-- The progress sub-trace produced by the event fold is the pointwise
contribution of each event, independent of the starting state. -/
theorem applyEvents_trace (es : List ProgEvent) :
    ∀ st : UploadState, (applyEvents st es).2 = es.filterMap evPc := by
  induction es with
  | nil => intro st; rfl
  | cons e rest ih =>
      intro st
      simp only [applyEvents, List.filterMap_cons]
      rw [ih]
      by_cases h : e.lengthComputable <;> simp [applyEvent, evPc, h]

/-- When every event is lengthComputable, the progress sub-trace is the
map of the scaled fractions. -/
theorem filterMap_evPc_of_computable (es : List ProgEvent)
    (hc : ∀ e ∈ es, e.lengthComputable = true) :
    es.filterMap evPc = es.map (fun e => e.loaded / e.total * 50) := by
  induction es with
  | nil => rfl
  | cons e rest ih =>
      simp only [List.filterMap_cons, List.map_cons, evPc,
        hc e (List.mem_cons_self e rest), if_true]
      rw [ih (fun x hx => hc x (List.mem_cons_of_mem e hx))]

/-- The settlement phase contributes one of three trace suffixes:
nothing (rejection or hang), the post-send jump alone (business
failure), or the jump followed by completion (success). -/
theorem settle_trace_cases (st : UploadState) (po : PromiseOutcome) :
    (settle st po).trace = [] ∨ (settle st po).trace = [70] ∨
    (settle st po).trace = [70, 100] := by
  cases po with
  | hung => exact Or.inl rfl
  | rejected m => exact Or.inl rfl
  | resolved j =>
      cases hj : j.success with
      | true => exact Or.inr (Or.inr (by simp [settle, hj]))
      | false => exact Or.inr (Or.inl (by simp [settle, hj]))

/-- On a successful settlement, the trace suffix is exactly the jump to
70 followed by 100. -/
theorem settle_trace_success (st : UploadState) (j : ServerJson)
    (hj : j.success = true) : (settle st (.resolved j)).trace = [70, 100] := by
  simp [settle, hj]

/-- Monotonicity of the full observed progress trace, given per-event
values within [30, 50], a monotone event sub-trace and one of the three
possible settlement suffixes. -/
theorem trace_chain_of (pcs tl : List ℚ)
    (hb : ∀ x ∈ pcs, 30 ≤ x ∧ x ≤ 50)
    (hc : pcs.Chain' (fun a b => a ≤ b))
    (ht : tl = [] ∨ tl = [70] ∨ tl = [70, 100]) :
    List.Chain' (fun a b => a ≤ b) ([0, 30] ++ pcs ++ tl) := by
  have htl : tl.Chain' (fun a b => a ≤ b) := by
    rcases ht with h | h | h <;> subst h
    · exact List.chain'_nil
    · exact List.chain'_singleton _
    · exact List.chain'_cons.mpr ⟨by norm_num, List.chain'_singleton _⟩
  have happ : (pcs ++ tl).Chain' (fun a b => a ≤ b) := by
    rw [List.chain'_append]
    refine ⟨hc, htl, ?_⟩
    intro x hx y hy
    have hxm : x ∈ pcs := by
      obtain ⟨hne, hxe⟩ := List.mem_getLast?_eq_getLast hx
      rw [hxe]
      exact List.getLast_mem hne
    have hx50 := (hb x hxm).2
    have hy70 : (70 : ℚ) ≤ y := by
      rcases ht with h | h | h <;> subst h <;> simp_all
    linarith
  have hhead : ∀ y ∈ (pcs ++ tl).head?, (30 : ℚ) ≤ y := by
    cases pcs with
    | nil =>
        rcases ht with h | h | h <;> subst h <;> intro y hy <;> simp_all <;>
          rw [← hy] <;> norm_num
    | cons p ps =>
        intro y hy
        simp only [List.cons_append, List.head?_cons, Option.mem_def,
          Option.some.injEq] at hy
        rw [← hy]
        exact (hb p (List.mem_cons_self p ps)).1
  have hshape : ([0, 30] ++ pcs ++ tl) = 0 :: 30 :: (pcs ++ tl) := by simp
  rw [hshape]
  exact List.chain'_cons.mpr ⟨by norm_num, List.chain'_cons'.mpr ⟨hhead, happ⟩⟩

/-- Counterexample to claim C1: on the attempt whose single byte-progress
event reports 1 of 10 bytes, the observed trace is [0, 30, 5, 70, 100] —
the pre-upload jump to 30 regresses to the event's scaled value 5, so
the observed progress sequence is not non-decreasing. -/
theorem progress_monotone_counterexample :
    ¬ List.Chain' (fun a b => a ≤ b) (handleSubmit stWithFile c1Input).trace := by
  have h2xx : is2xx 200 = true := rfl
  have h : (handleSubmit stWithFile c1Input).trace
      = [0, 30, 1/10 * 50, 70, 100] := by
    simp [handleSubmit, stWithFile, c1Input, initialState, demoPdf, applyEvents,
      applyEvent, xhrOutcome, loadHandler, h2xx, settle, c1Json]
  intro hch
  rw [h] at hch
  have h30 := (List.chain'_cons.mp (List.chain'_cons.mp hch).2).1
  norm_num at h30

/-- Claim C1 as amended: provided every byte-progress event is
lengthComputable with a sent fraction between 3/5 and 1 and the
fractions arrive in non-decreasing order, the progress values observed
during one attempt are non-decreasing; and on the success path the final
observed value is exactly 100 (the latter unconditionally on event
fractions). The 3/5 lower bound is exactly what the counterexample
forces: the pre-upload jump sets progress 30 while events scale into
[0, 50], so an event below 60% sent regresses. -/
theorem progress_monotone_amended (st : UploadState) (inp : AttemptInput)
    (f : JsFile) (hf : st.file = some f)
    (hc : ∀ e ∈ inp.events, e.lengthComputable = true)
    (hlo : ∀ e ∈ inp.events, 3/5 ≤ e.loaded / e.total)
    (hhi : ∀ e ∈ inp.events, e.loaded / e.total ≤ 1)
    (hmono : List.Chain' (fun a b => a ≤ b)
      (inp.events.map (fun e => e.loaded / e.total))) :
    List.Chain' (fun a b => a ≤ b) (handleSubmit st inp).trace ∧
    (∀ j, xhrOutcome inp.result = PromiseOutcome.resolved j → j.success = true →
      (handleSubmit st inp).trace.getLast? = some 100) := by
  have htrace : ∀ st2 : UploadState,
      (applyEvents st2 inp.events).2
        = inp.events.map (fun e => e.loaded / e.total * 50) := by
    intro st2
    rw [applyEvents_trace, filterMap_evPc_of_computable inp.events hc]
  have hb : ∀ x ∈ inp.events.map (fun e => e.loaded / e.total * 50),
      30 ≤ x ∧ x ≤ 50 := by
    intro x hx
    obtain ⟨e, he, hxe⟩ := List.mem_map.mp hx
    constructor
    · rw [← hxe]
      have := mul_le_mul_of_nonneg_right (hlo e he) (by norm_num : (0:ℚ) ≤ 50)
      linarith
    · rw [← hxe]
      have := mul_le_mul_of_nonneg_right (hhi e he) (by norm_num : (0:ℚ) ≤ 50)
      linarith
  have hchain : (inp.events.map (fun e => e.loaded / e.total * 50)).Chain'
      (fun a b => a ≤ b) := by
    have hrw : inp.events.map (fun e => e.loaded / e.total * 50)
        = (inp.events.map (fun e => e.loaded / e.total)).map (fun x => x * 50) := by
      rw [List.map_map]
      rfl
    rw [hrw, List.chain'_map]
    exact hmono.imp (fun a b hab =>
      mul_le_mul_of_nonneg_right hab (by norm_num : (0:ℚ) ≤ 50))
  constructor
  · simp only [handleSubmit, hf]
    rw [htrace]
    exact trace_chain_of _ _ hb hchain (settle_trace_cases _ _)
  · intro j hj hs
    simp only [handleSubmit, hf]
    rw [htrace, hj, settle_trace_success _ j hs]
    rw [List.getLast?_append_of_ne_nil _ (by simp)]
    rfl

/-- Witness for amended C1: two events at 70% and 90% sent followed by a
successful response give a non-decreasing trace ending at 100. -/
theorem progress_monotone_amended_witness :
    List.Chain' (fun a b => a ≤ b) (handleSubmit stWithFile c1GoodInput).trace ∧
    (handleSubmit stWithFile c1GoodInput).trace.getLast? = some 100 := by
  have hmono : List.Chain' (fun a b => a ≤ b)
      (c1GoodInput.events.map (fun e => e.loaded / e.total)) := by
    have : c1GoodInput.events.map (fun e => e.loaded / e.total)
        = [7/10, 9/10] := by
      norm_num [c1GoodInput]
    rw [this]
    exact List.chain'_cons.mpr ⟨by norm_num, List.chain'_singleton _⟩
  have h := progress_monotone_amended stWithFile c1GoodInput demoPdf rfl
    (by intro e he; fin_cases he <;> rfl)
    (by intro e he; fin_cases he <;> norm_num [c1GoodInput])
    (by intro e he; fin_cases he <;> norm_num [c1GoodInput])
    hmono
  exact ⟨h.1, h.2 c1Json rfl rfl⟩

/-- Counterexample to claim C4: a 2xx response whose body is not valid
JSON does NOT terminate the attempt — the unguarded `JSON.parse` in the
load listener throws, the promise never settles, no notification is
emitted and the in-flight flag stays set forever. -/
theorem malformed_json_counterexample :
    (handleSubmit stWithFile ⟨[], .load 200 .malformed⟩).terminated = false ∧
    (handleSubmit stWithFile ⟨[], .load 200 .malformed⟩).finalState.isUploading
      = true ∧
    (handleSubmit stWithFile ⟨[], .load 200 .malformed⟩).notifs = [] := by
  decide

/-- Claim C4 as amended: only for NON-2xx statuses is a body that fails
to parse handled as a failure-equivalent — the generic "Upload failed"
message is reported, the attempt terminates and the in-flight flag is
cleared; for a 2xx status with an unparseable body the parse exception
escapes the load listener, the attempt never reaches a terminal path,
no notification is emitted and the in-flight flag is never cleared. -/
theorem malformed_json_amended (st : UploadState) (f : JsFile)
    (es : List ProgEvent) (status : Nat) (hf : st.file = some f) :
    (is2xx status = false →
      (handleSubmit st ⟨es, .load status .malformed⟩).notifs
        = [Notif.error "Upload failed"] ∧
      (handleSubmit st ⟨es, .load status .malformed⟩).terminated = true ∧
      (handleSubmit st ⟨es, .load status .malformed⟩).finalState.isUploading
        = false) ∧
    (is2xx status = true →
      (handleSubmit st ⟨es, .load status .malformed⟩).notifs = [] ∧
      (handleSubmit st ⟨es, .load status .malformed⟩).terminated = false ∧
      (handleSubmit st ⟨es, .load status .malformed⟩).finalState.isUploading
        = true) := by
  constructor
  · intro h
    simp only [handleSubmit, hf]
    simp [xhrOutcome, loadHandler, h, settle]
  · intro h
    simp only [handleSubmit, hf]
    simp [xhrOutcome, loadHandler, h, settle, applyEvents_isUploading]

/-- Witness for amended C4: status 404 terminates with the generic
message; status 200 hangs with the flag still set. -/
theorem malformed_json_amended_witness :
    ((handleSubmit stWithFile ⟨[], .load 404 .malformed⟩).notifs
        = [Notif.error "Upload failed"] ∧
      (handleSubmit stWithFile ⟨[], .load 404 .malformed⟩).terminated = true ∧
      (handleSubmit stWithFile ⟨[], .load 404 .malformed⟩).finalState.isUploading
        = false) ∧
    ((handleSubmit stWithFile ⟨[], .load 200 .malformed⟩).notifs = [] ∧
      (handleSubmit stWithFile ⟨[], .load 200 .malformed⟩).terminated = false ∧
      (handleSubmit stWithFile ⟨[], .load 200 .malformed⟩).finalState.isUploading
        = true) :=
  ⟨(malformed_json_amended stWithFile demoPdf [] 404 rfl).1 (by decide),
   (malformed_json_amended stWithFile demoPdf [] 200 rfl).2 (by decide)⟩

/-- Counterexample to claim C7: a non-2xx response whose JSON body
carries the detail field with value "" (a present detail field) is NOT
reported as that detail string — the empty string is falsy, so the
generic "Upload failed" message is reported instead. -/
theorem detail_message_counterexample :
    (handleSubmit stWithFile ⟨[], .load 422 (.parsed c7Json)⟩).notifs
      = [Notif.error "Upload failed"] ∧
    (handleSubmit stWithFile ⟨[], .load 422 (.parsed c7Json)⟩).notifs
      ≠ [Notif.error ""] := by
  decide

/-- Claim C7 as amended: for a non-2xx response whose body parses as
JSON with a NON-EMPTY detail string, the reported failure message is
exactly that string; when detail is absent or the empty string — or the
body does not parse, by amended C4 — the generic "Upload failed"
message is reported. -/
theorem detail_message_amended (st : UploadState) (f : JsFile)
    (es : List ProgEvent) (status : Nat) (j : ServerJson)
    (hf : st.file = some f) (h2 : is2xx status = false) :
    (∀ d, j.detail = some d → d ≠ "" →
      (handleSubmit st ⟨es, .load status (.parsed j)⟩).notifs
        = [Notif.error d]) ∧
    ((j.detail = none ∨ j.detail = some "") →
      (handleSubmit st ⟨es, .load status (.parsed j)⟩).notifs
        = [Notif.error "Upload failed"]) := by
  constructor
  · intro d hd hne
    simp only [handleSubmit, hf]
    simp [xhrOutcome, loadHandler, h2, settle, jsOrStr, hd, hne]
  · intro hd
    rcases hd with hd | hd <;>
    · simp only [handleSubmit, hf]
      simp [xhrOutcome, loadHandler, h2, settle, jsOrStr, hd]

/-- Witness for amended C7: the spec example — body
`{"detail":"corrupt file"}` on status 400 reports exactly
"corrupt file". -/
theorem detail_message_amended_witness :
    (handleSubmit stWithFile ⟨[], .load 400 (.parsed c7GoodJson)⟩).notifs
      = [Notif.error "corrupt file"] :=
  (detail_message_amended stWithFile demoPdf [] 400 c7GoodJson rfl
    (by decide)).1 "corrupt file" rfl (by decide)

/-- Counterexample to claim C5: after a reset() issued mid-upload, the
superseded attempt's callbacks still mutate state — its progress
callback changes the cleared state, and its response continuation
repopulates the extracted profile. -/
theorem stale_callbacks_counterexample :
    (applyEvent (removeFile c5Mid) ⟨true, 1, 2⟩).1 ≠ removeFile c5Mid ∧
    (settle (removeFile c5Mid) (.resolved c5Json)).finalState.extractedData
      ≠ none := by
  constructor
  · intro h
    have hp := congrArg UploadState.progress h
    simp [applyEvent, removeFile, c5Mid] at hp
  · have hs : c5Json.success = true := rfl
    simp [settle, hs]

/-- Claim C5 as amended: reset() does not invalidate the in-flight
attempt's callbacks — there is no generation check — so a late
lengthComputable progress event overwrites the cleared progress with its
scaled value, and a late successful response repopulates the extracted
profile, the match list, progress 100 and emits the success toast, all
on the post-reset state. -/
theorem stale_callbacks_amended (st : UploadState) (e : ProgEvent)
    (j : ServerJson) (hc : e.lengthComputable = true) (hs : j.success = true) :
    (applyEvent (removeFile st) e).1
      = { removeFile st with progress := e.loaded / e.total * 50 } ∧
    (settle (removeFile st) (.resolved j)).finalState.extractedData
      = some (buildExtracted (j.student_profile.getD emptyProfile)) ∧
    (settle (removeFile st) (.resolved j)).finalState.matchedScholarships
      = some (buildScholarshipList (j.recommendations.getD [])) ∧
    (settle (removeFile st) (.resolved j)).finalState.progress = 100 ∧
    (settle (removeFile st) (.resolved j)).notifs
      = [Notif.success "Marksheet processed successfully!"] := by
  refine ⟨?_, ?_, ?_, ?_, ?_⟩ <;> simp [applyEvent, hc, settle, hs]

/-- Witness for amended C5 at the concrete mid-upload state: the late
50%-sent event and the late success response of the superseded
attempt. -/
theorem stale_callbacks_amended_witness :
    (applyEvent (removeFile c5Mid) ⟨true, 1, 2⟩).1
      = { removeFile c5Mid with progress := (1 : ℚ) / 2 * 50 } ∧
    (settle (removeFile c5Mid) (.resolved c5Json)).finalState.extractedData
      = some (buildExtracted (c5Json.student_profile.getD emptyProfile)) ∧
    (settle (removeFile c5Mid) (.resolved c5Json)).finalState.matchedScholarships
      = some (buildScholarshipList (c5Json.recommendations.getD [])) ∧
    (settle (removeFile c5Mid) (.resolved c5Json)).finalState.progress = 100 ∧
    (settle (removeFile c5Mid) (.resolved c5Json)).notifs
      = [Notif.success "Marksheet processed successfully!"] :=
  stale_callbacks_amended c5Mid ⟨true, 1, 2⟩ c5Json rfl rfl

end UploadModel
